import Mathlib

/-!
Verification of the rate-limiter core: a shallow embedding of the token-bucket
decision engine, its Redis-backed atomic store, the identity/policy resolver and
the HTTP middleware of the `rate_limiter_challeng` repository, together with
theorems settling the specified properties.

Conventions of the embedding:
* Go `int`/`int64` values are modelled as `ℤ`; Go `time.Duration` is `ℤ`
  nanoseconds; Lua/Go floating-point token counts are modelled as exact
  rationals `ℚ` (the algorithmic properties under scrutiny are about the
  exact arithmetic of the algorithm, not about rounding).
* Fallible Go functions returning `(T, error)` are modelled as
  `Except String T`; error strings follow the Go messages.
* The effectful storage calls made by the use case are captured in an explicit
  trace (`StorageOp`) so that "operation X was not invoked" is provable.
-/

namespace RateLimiter

/-- Go `time.Duration`: a count of nanoseconds (`int64`). -/
abbrev Duration := ℤ

/-- Go `Duration.Seconds()`: the duration expressed in seconds (exact rational
in the model, `float64` in Go). -/
def durationSeconds (d : Duration) : ℚ := (d : ℚ) / 1000000000

/-- Entity `LimiterKey` (internal/domain/entity/limiter_key.go). The Go
`KeyType` is a string type, modelled as `String`; the Go field name `Type` is a
Lean keyword, so the field is called `Type'`. -/
structure LimiterKey where
  Type' : String
  Value : String
deriving DecidableEq

/-- Go constant `KeyTypeIP KeyType = "ip"`. -/
def KeyTypeIP : String := "ip"

/-- Go constant `KeyTypeToken KeyType = "token"`. -/
def KeyTypeToken : String := "token"

/-- Go `NewIPKey`. -/
def NewIPKey (ip : String) : LimiterKey := ⟨KeyTypeIP, ip⟩

/-- Go `NewTokenKey`. -/
def NewTokenKey (token : String) : LimiterKey := ⟨KeyTypeToken, token⟩

/-- Go method `LimiterKey.String()`: `fmt.Sprintf("rate_limit:%s:%s", k.Type,
k.Value)`. Named `keyString` because `String` is the Lean string type. -/
def LimiterKey.keyString (k : LimiterKey) : String :=
  "rate_limit:" ++ k.Type' ++ ":" ++ k.Value

/-- Go method `LimiterKey.IsValid()`: `k.Type != "" && k.Value != ""`. -/
def LimiterKey.IsValid (k : LimiterKey) : Bool :=
  k.Type' ≠ "" && k.Value ≠ ""

/-- Use-case `Input` DTO (internal/usecase/check_rate_limit). -/
structure Input where
  Key : LimiterKey
  Limit : ℤ
  Window : Duration
  BlockTime : Duration
deriving DecidableEq

/-- Go `Input.Validate()`: rejects an invalid key, a non-positive limit, a
non-positive window, and a negative block time (zero block time passes). -/
def Input.Validate (i : Input) : Except String Unit :=
  if !i.Key.IsValid then .error "invalid limiter key"
  else if i.Limit ≤ 0 then .error "limit must be positive"
  else if i.Window ≤ 0 then .error "window must be positive"
  else if i.BlockTime < 0 then .error "block time cannot be negative"
  else .ok ()

/-- Per-identity bucket state stored in Redis: the value at the `:tokens` key
and the value at the `:last_refill` key; `none` models an absent key. -/
structure BucketState where
  tokens : Option ℚ
  lastRefill : Option ℤ
deriving DecidableEq

/-- The 3-element reply `{allowed, current_tokens, capacity}` returned by the
Lua script, with `allowed` the integer flag 1 or 0 as in the script text. -/
structure ScriptReply where
  allowed : ℤ
  currentTokens : ℚ
  capacity : ℤ
deriving DecidableEq

/-- The Lua `tokenBucketScript` (internal/adapter/storage/redis/lua_scripts):
loads tokens (default capacity) and last refill (default now), computes
`elapsed = now - last_refill` (note: not clamped at zero), adds
`elapsed * capacity / window_seconds` tokens capped at capacity, then either
consumes one token and persists both values, or persists only the timestamp. -/
def tokenBucketScript (capacity : ℤ) (window_seconds : ℚ) (now : ℤ)
    (st : BucketState) : ScriptReply × BucketState :=
  let tokens : ℚ := st.tokens.getD (capacity : ℚ)
  let last_refill : ℤ := st.lastRefill.getD now
  let elapsed : ℚ := ((now - last_refill : ℤ) : ℚ)
  let refill_rate : ℚ := (capacity : ℚ) / window_seconds
  let tokens_to_add : ℚ := elapsed * refill_rate
  let tokens : ℚ := min (capacity : ℚ) (tokens + tokens_to_add)
  if tokens ≥ 1 then
    (⟨1, tokens - 1, capacity⟩, ⟨some (tokens - 1), some now⟩)
  else
    (⟨0, tokens, capacity⟩, ⟨st.tokens, some now⟩)

/-- The refilled token count before the consume decision, as the specification
formula states it: `min(capacity, tokens + elapsed × capacity/window_seconds)`
with loaded defaults, where `elapsed = now − lastRefill` as in the script. -/
def refilledTokens (capacity : ℤ) (window_seconds : ℚ) (now : ℤ)
    (st : BucketState) : ℚ :=
  min (capacity : ℚ)
    (st.tokens.getD (capacity : ℚ) +
      ((now - st.lastRefill.getD now : ℤ) : ℚ) * ((capacity : ℚ) / window_seconds))

/-- The refilled token count as the specification words it with the clamp:
`min(capacity, tokens + max(0, now − lastRefill) × capacity/window_seconds)`.
Stated from the spec (steps 2 and 4 of the CheckAndConsume algorithm) for
comparison with the script's actual computation. -/
def refilledTokensSpecClamped (capacity : ℤ) (window_seconds : ℚ) (now : ℤ)
    (st : BucketState) : ℚ :=
  min (capacity : ℚ)
    (st.tokens.getD (capacity : ℚ) +
      (max 0 ((now - st.lastRefill.getD now : ℤ) : ℚ)) * ((capacity : ℚ) / window_seconds))

/-- Repository `CheckResult` (internal/domain/repository). -/
structure CheckResult where
  Allowed : Bool
  CurrentTokens : ℚ
  Limit : ℤ
deriving DecidableEq

/-- `RedisStorage.CheckAndConsume` (internal/adapter/storage/redis): validates
`limit > 0` and `window > 0`, runs the atomic script at time `now` on the
bucket state for the key, and packages the reply into a `CheckResult` with
`Allowed = (allowed flag == 1)` and the input limit echoed back. The state
threading stands for the two `SETEX` writes of the script. -/
def RedisCheckAndConsume (now : ℤ) (st : BucketState) (limit : ℤ)
    (window : Duration) : Except String (CheckResult × BucketState) :=
  if limit ≤ 0 then .error "limit must be positive"
  else if window ≤ 0 then .error "window must be positive"
  else
    let run := tokenBucketScript limit (durationSeconds window) now st
    .ok (⟨run.1.allowed == 1, run.1.currentTokens, limit⟩, run.2)

/-- Runs a sequence of `CheckAndConsume` calls (one timestamp per call) with a
fixed limit and window against a bucket, threading the store state; a call that
fails validation performs no store write and leaves the state unchanged. -/
def runCheckCalls (limit : ℤ) (window : Duration) (st : BucketState) :
    List ℤ → BucketState
  | [] => st
  | now :: rest =>
      match RedisCheckAndConsume now st limit window with
      | .ok r => runCheckCalls limit window r.2 rest
      | .error _ => runCheckCalls limit window st rest

/-- Invariant on the stored bucket state: whenever a token value is present it
lies between 0 and the capacity. An absent value (fresh bucket) conceptually
stands for a full bucket and satisfies the invariant. -/
def BucketInv (capacity : ℤ) (st : BucketState) : Prop :=
  ∀ t ∈ st.tokens, 0 ≤ t ∧ t ≤ (capacity : ℚ)

/-- Dynamic value returned by the go-redis script call (`interface{}` in Go):
an int64, a string, a float64, an array, or anything else (`other`). -/
inductive RVal where
  | int : ℤ → RVal
  | str : String → RVal
  | flt : ℚ → RVal
  | arr : List RVal → RVal
  | other : RVal

/-- Numeric value of a decimal digit list (most significant first); only used
on lists of digit characters. -/
def natOfDigits (cs : List Char) : ℕ :=
  cs.foldl (fun a c => 10 * a + (c.toNat - 48)) 0

/-- Models `strconv.ParseFloat` from the Go standard library on plain decimal
numerals: optional sign, integer digits, optional dot and fractional digits.
Exponent, hexadecimal and Inf/NaN forms are outside the model. `none` models a
parse failure. -/
def parseFloatString (s : String) : Option ℚ :=
  let core : List Char → Option ℚ := fun cs =>
    let ip := cs.takeWhile Char.isDigit
    match cs.dropWhile Char.isDigit with
    | [] => if ip.isEmpty then none else some (natOfDigits ip : ℚ)
    | '.' :: fp =>
        if fp.all Char.isDigit && !(ip.isEmpty && fp.isEmpty) then
          some ((natOfDigits ip : ℚ) + (natOfDigits fp : ℚ) / (10 : ℚ) ^ fp.length)
        else none
    | _ => none
  match s.data with
  | '-' :: cs => (core cs).map (fun q => -q)
  | '+' :: cs => core cs
  | cs => core cs

/-- `RedisStorage.parseTokensValue`: accepts a float64 as is, parses a string
with `strconv.ParseFloat`, widens an int64; any other type is an error. -/
def parseTokensValue (value : RVal) : Except String ℚ :=
  match value with
  | .flt v => .ok v
  | .str v =>
      match parseFloatString v with
      | some tokens => .ok tokens
      | none => .error ("failed to parse string tokens value " ++ v)
  | .int v => .ok ((v : ℚ))
  | _ => .error "unexpected tokens value type"

/-- `RedisStorage.parseScriptResult`: requires an array of exactly 3 elements,
an int64 allowed flag at position 0 (`allowed = (flag == 1)`), a parseable
tokens value at position 1; the element at position 2 is not inspected. -/
def parseScriptResult (result : RVal) : Except String (Bool × ℚ) :=
  match result with
  | .arr resultSlice =>
      match resultSlice with
      | [a, t, _] =>
          match a with
          | .int allowedValue =>
              match parseTokensValue t with
              | .ok tokens => .ok (allowedValue == 1, tokens)
              | .error e => .error ("failed to parse tokens value: " ++ e)
          | _ => .error "expected int64 for allowed flag"
      | _ => .error "expected 3 elements in result array"
  | _ => .error "expected array result"

/-- True exactly on the error constructor of `Except`. -/
def isParseError {α : Type} (e : Except String α) : Bool :=
  match e with
  | .error _ => true
  | .ok _ => false

/-- Use-case `Output` DTO. Unset Go fields take the Go zero values. -/
structure Output where
  Allowed : Bool
  CurrentTokens : ℚ
  Limit : ℤ
  Blocked : Bool
  Message : String
deriving DecidableEq

/-- The standardized rate-limit message (constant `RateLimitExceededMessage`). -/
def RateLimitExceededMessage : String :=
  "you have reached the maximum number of requests or actions allowed within a certain time frame"

/-- `UseCase.createBlockedOutput`: Allowed=false, Blocked=true, the standard
message; CurrentTokens and Limit keep their zero values. -/
def createBlockedOutput : Output :=
  ⟨false, 0, 0, true, RateLimitExceededMessage⟩

/-- `UseCase.createRateLimitExceededOutput`. -/
def createRateLimitExceededOutput (result : CheckResult) : Output :=
  ⟨false, result.CurrentTokens, result.Limit, false, RateLimitExceededMessage⟩

/-- `UseCase.createAllowedOutput`. -/
def createAllowedOutput (result : CheckResult) : Output :=
  ⟨true, result.CurrentTokens, result.Limit, false, ""⟩

/-- The `repository.Storage` capability set as seen by the use case: each
operation is an oracle giving the call's outcome (the `Close` method plays no
part in the verified flow). -/
structure Storage where
  IsBlocked : LimiterKey → Except String Bool
  CheckAndConsume : LimiterKey → ℤ → Duration → Except String CheckResult
  SetBlock : LimiterKey → Duration → Except String Unit

/-- One storage call made by the use case, recorded with its arguments. -/
inductive StorageOp where
  | isBlockedOp : LimiterKey → StorageOp
  | checkAndConsumeOp : LimiterKey → ℤ → Duration → StorageOp
  | setBlockOp : LimiterKey → Duration → StorageOp
deriving DecidableEq

/-- `UseCase.Execute` (internal/usecase/check_rate_limit): validate, consult
the block flag, consume from the bucket, and block on a denial — returning the
outcome together with the trace of storage calls made, in order. -/
def Execute (storage : Storage) (input : Input) :
    Except String Output × List StorageOp :=
  match input.Validate with
  | .error e => (.error e, [])
  | .ok _ =>
      match storage.IsBlocked input.Key with
      | .error e => (.error e, [.isBlockedOp input.Key])
      | .ok true => (.ok createBlockedOutput, [.isBlockedOp input.Key])
      | .ok false =>
          match storage.CheckAndConsume input.Key input.Limit input.Window with
          | .error e =>
              (.error e, [.isBlockedOp input.Key,
                .checkAndConsumeOp input.Key input.Limit input.Window])
          | .ok result =>
              if !result.Allowed then
                match storage.SetBlock input.Key input.BlockTime with
                | .error e =>
                    (.error e, [.isBlockedOp input.Key,
                      .checkAndConsumeOp input.Key input.Limit input.Window,
                      .setBlockOp input.Key input.BlockTime])
                | .ok _ =>
                    (.ok (createRateLimitExceededOutput result),
                      [.isBlockedOp input.Key,
                        .checkAndConsumeOp input.Key input.Limit input.Window,
                        .setBlockOp input.Key input.BlockTime])
              else
                (.ok (createAllowedOutput result),
                  [.isBlockedOp input.Key,
                    .checkAndConsumeOp input.Key input.Limit input.Window])

/-- Middleware `TokenConfig`. -/
structure TokenConfig where
  Limit : ℤ
  Window : Duration
  BlockTime : Duration
deriving DecidableEq

/-- The middleware `Config` capability: default IP policy plus the read-only
token-policy registry (`GetTokenConfig` returning `none` models the
`(TokenConfig{}, false)` answer for an unknown key). -/
structure MiddlewareConfig where
  GetIPLimit : ℤ
  GetIPWindow : Duration
  GetIPBlockTime : Duration
  GetTokenConfig : String → Option TokenConfig

/-- `RateLimiterMiddleware.buildRateLimitInput`: token policy with the token
identity when the API key is non-empty and registered; otherwise the IP
identity with the default IP policy. -/
def buildRateLimitInput (cfg : MiddlewareConfig) (ip apiKey : String) : Input :=
  if apiKey ≠ "" then
    match cfg.GetTokenConfig apiKey with
    | some tokenConfig =>
        ⟨NewTokenKey apiKey, tokenConfig.Limit, tokenConfig.Window,
          tokenConfig.BlockTime⟩
    | none =>
        ⟨NewIPKey ip, cfg.GetIPLimit, cfg.GetIPWindow, cfg.GetIPBlockTime⟩
  else
    ⟨NewIPKey ip, cfg.GetIPLimit, cfg.GetIPWindow, cfg.GetIPBlockTime⟩

/-- The Redis keyspace as the storage adapter uses it: per-key-string bucket
state (the `:tokens` and `:last_refill` keys combined into one `BucketState`)
and presence of the `:blocked` marker (TTL expiry is outside the model). -/
structure RedisState where
  buckets : String → BucketState
  blockFlags : String → Bool

/-- `RedisStorage.IsBlocked`: EXISTS on the `:blocked` key. -/
def redisIsBlocked (st : RedisState) (key : LimiterKey) : Except String Bool :=
  .ok (st.blockFlags (key.keyString ++ ":blocked"))

/-- `RedisStorage.SetBlock`: rejects a non-positive block time, otherwise SET
with TTL on the `:blocked` key. -/
def redisSetBlock (st : RedisState) (key : LimiterKey) (blockTime : Duration) :
    Except String RedisState :=
  if blockTime ≤ 0 then .error "block time must be positive"
  else
    .ok { st with
      blockFlags := fun s =>
        if s = key.keyString ++ ":blocked" then true else st.blockFlags s }

/-- `RedisStorage.CheckAndConsume` against a full Redis keyspace: runs the
atomic script on the key's bucket and writes the updated bucket back. -/
def redisCheckAndConsumeState (st : RedisState) (now : ℤ) (key : LimiterKey)
    (limit : ℤ) (window : Duration) :
    Except String (CheckResult × RedisState) :=
  match RedisCheckAndConsume now (st.buckets key.keyString) limit window with
  | .error e => .error e
  | .ok r =>
      .ok (r.1, { st with
        buckets := fun s => if s = key.keyString then r.2 else st.buckets s })

/-- `UseCase.Execute` composed with the concrete `RedisStorage` operations at
clock reading `now`, threading the Redis keyspace. -/
def ExecuteRedis (now : ℤ) (st : RedisState) (input : Input) :
    Except String Output × RedisState :=
  match input.Validate with
  | .error e => (.error e, st)
  | .ok _ =>
      match redisIsBlocked st input.Key with
      | .error e => (.error e, st)
      | .ok true => (.ok createBlockedOutput, st)
      | .ok false =>
          match redisCheckAndConsumeState st now input.Key input.Limit input.Window with
          | .error e => (.error e, st)
          | .ok (result, st2) =>
              if !result.Allowed then
                match redisSetBlock st2 input.Key input.BlockTime with
                | .error e => (.error e, st2)
                | .ok st3 => (.ok (createRateLimitExceededOutput result), st3)
              else (.ok (createAllowedOutput result), st2)

/-- HTTP decision of `RateLimiterMiddleware.Handle`: what the middleware does
with the use-case answer. -/
inductive HttpOutcome where
  | next : HttpOutcome
  | respond : ℕ → HttpOutcome
deriving DecidableEq

/-- The outcome-to-response mapping of `Handle`: an error becomes a 500
response, a disallowed output a 429 response, an allowed output delegates to
the next handler. -/
def handleOutcome (answer : Except String Output) : HttpOutcome :=
  match answer with
  | .error _ => .respond 500
  | .ok output => if !output.Allowed then .respond 429 else .next

/-! Helper lemmas shared by several theorems. -/

/-- When the refilled token count reaches 1, the script consumes one token,
persists both values, and replies with flag 1. -/
theorem script_allowed_eq (capacity : ℤ) (ws : ℚ) (now : ℤ) (st : BucketState)
    (hge : 1 ≤ refilledTokens capacity ws now st) :
    tokenBucketScript capacity ws now st =
      (⟨1, refilledTokens capacity ws now st - 1, capacity⟩,
        ⟨some (refilledTokens capacity ws now st - 1), some now⟩) := by
  rw [refilledTokens] at hge
  simp only [tokenBucketScript, refilledTokens, ge_iff_le, hge, if_true]

/-- When the refilled token count stays below 1, the script replies with flag 0
and persists only the timestamp. -/
theorem script_denied_eq (capacity : ℤ) (ws : ℚ) (now : ℤ) (st : BucketState)
    (hlt : refilledTokens capacity ws now st < 1) :
    tokenBucketScript capacity ws now st =
      (⟨0, refilledTokens capacity ws now st, capacity⟩, ⟨st.tokens, some now⟩) := by
  have h := not_le.mpr hlt
  rw [refilledTokens] at h
  simp only [tokenBucketScript, refilledTokens, ge_iff_le, h, if_false]

/-- With a positive limit and window the storage adapter runs the script and
packages its reply. -/
theorem rcac_eq (now : ℤ) (st : BucketState) (limit : ℤ) (window : Duration)
    (hl : 0 < limit) (hw : 0 < window) :
    RedisCheckAndConsume now st limit window =
      .ok (⟨(tokenBucketScript limit (durationSeconds window) now st).1.allowed == 1,
        (tokenBucketScript limit (durationSeconds window) now st).1.currentTokens, limit⟩,
        (tokenBucketScript limit (durationSeconds window) now st).2) := by
  simp only [RedisCheckAndConsume, not_le.mpr hl, not_le.mpr hw, if_false]

end RateLimiter

namespace RateLimiter

/-- C1: a CheckAndConsume call with positive capacity and window whose refilled
token count `min(capacity, tokens + elapsed × capacity/window_seconds)` is at
least 1 decrements that count by exactly 1, persists the decremented tokens
and `lastRefill = now`, and returns allowed together with the decremented
count and the capacity. -/
theorem checkAndConsume_allows_and_persists
    (now : ℤ) (st : BucketState) (limit : ℤ) (window : Duration)
    (hl : 0 < limit) (hw : 0 < window)
    (hge : 1 ≤ refilledTokens limit (durationSeconds window) now st) :
    RedisCheckAndConsume now st limit window =
      .ok (⟨true, refilledTokens limit (durationSeconds window) now st - 1, limit⟩,
        ⟨some (refilledTokens limit (durationSeconds window) now st - 1), some now⟩) := by
  rw [rcac_eq now st limit window hl hw, script_allowed_eq limit _ now st hge]
  rfl

/-- C1 witness: a fresh bucket with capacity 10 and a one-second window allows
the call and persists 9 tokens. -/
theorem checkAndConsume_allows_and_persists_witness :
    0 < (10 : ℤ) ∧ 0 < (10 ^ 9 : ℤ) ∧
    1 ≤ refilledTokens 10 (durationSeconds (10 ^ 9)) 0 ⟨none, none⟩ ∧
    RedisCheckAndConsume 0 ⟨none, none⟩ 10 (10 ^ 9) =
      .ok (⟨true, 9, 10⟩, ⟨some 9, some 0⟩) := by
  have h9 : refilledTokens 10 (durationSeconds (10 ^ 9)) 0 ⟨none, none⟩ = 10 := by
    norm_num [refilledTokens, durationSeconds]
  refine ⟨by norm_num, by norm_num, by rw [h9]; norm_num, ?_⟩
  rw [checkAndConsume_allows_and_persists 0 ⟨none, none⟩ 10 (10 ^ 9) (by norm_num)
    (by norm_num) (by rw [h9]; norm_num), h9]
  norm_num

/-- C2 counterexample: at capacity 10, window 1 s, stored tokens 5 and a clock
that stepped back 10 s (stored lastRefill 100, now 90), the script's computed
token count is −95 — the elapsed time is not clamped at zero, the refill
decreases the count below the stored 5, and the result differs from the
clamped computation the claim describes (which would leave 5). -/
theorem elapsed_not_clamped_counterexample :
    (tokenBucketScript 10 1 90 ⟨some 5, some 100⟩).1.currentTokens = -95 ∧
    refilledTokensSpecClamped 10 1 90 ⟨some 5, some 100⟩ = 5 ∧
    (tokenBucketScript 10 1 90 ⟨some 5, some 100⟩).1.currentTokens < 5 := by
  refine ⟨?_, ?_, ?_⟩ <;>
    norm_num [tokenBucketScript, refilledTokensSpecClamped, min_def]

/-- C2 (amended): the script computes `elapsed = now − lastRefill` with no
clamp at zero; when the clock steps backwards (now earlier than the stored
lastRefill) and the refill rate is positive, the computed token count strictly
decreases below the stored count (the reply's count never exceeds the refilled
value, which drops below the stored tokens). -/
theorem elapsed_unclamped_refill_decreases
    (capacity : ℤ) (ws : ℚ) (now l0 : ℤ) (t0 : ℚ)
    (hc : 0 < capacity) (hw : 0 < ws) (ht : t0 ≤ (capacity : ℚ)) (hlt : now < l0) :
    (tokenBucketScript capacity ws now ⟨some t0, some l0⟩).1.currentTokens ≤
      refilledTokens capacity ws now ⟨some t0, some l0⟩ ∧
    refilledTokens capacity ws now ⟨some t0, some l0⟩ < t0 := by
  have hrate : 0 < (capacity : ℚ) / ws := by positivity
  have helapsed : ((now - l0 : ℤ) : ℚ) < 0 := by
    have : (now : ℚ) < (l0 : ℚ) := by exact_mod_cast hlt
    push_cast
    linarith
  have hadd : ((now - l0 : ℤ) : ℚ) * ((capacity : ℚ) / ws) < 0 :=
    mul_neg_of_neg_of_pos helapsed hrate
  have href : refilledTokens capacity ws now ⟨some t0, some l0⟩ =
      t0 + ((now - l0 : ℤ) : ℚ) * ((capacity : ℚ) / ws) := by
    rw [refilledTokens]
    simp only [Option.getD_some]
    exact min_eq_right (by linarith)
  constructor
  · by_cases hguard : 1 ≤ refilledTokens capacity ws now ⟨some t0, some l0⟩
    · rw [script_allowed_eq capacity ws now _ hguard]
      simp only
      linarith
    · rw [script_denied_eq capacity ws now _ (not_le.mp hguard)]
  · rw [href]
    linarith

/-- C2 amended-claim witness: the concrete backwards-clock call of the
counterexample satisfies the amended statement. -/
theorem elapsed_unclamped_refill_decreases_witness :
    0 < (10 : ℤ) ∧ 0 < (1 : ℚ) ∧ (5 : ℚ) ≤ ((10 : ℤ) : ℚ) ∧ (90 : ℤ) < 100 ∧
    (tokenBucketScript 10 1 90 ⟨some 5, some 100⟩).1.currentTokens ≤
      refilledTokens 10 1 90 ⟨some 5, some 100⟩ ∧
    refilledTokens 10 1 90 ⟨some 5, some 100⟩ < 5 := by
  have h := elapsed_unclamped_refill_decreases 10 1 90 100 5 (by norm_num)
    (by norm_num) (by norm_num) (by norm_num)
  exact ⟨by norm_num, by norm_num, by norm_num, by norm_num, h.1, h.2⟩

/-- C3: a CheckAndConsume call with positive capacity and window whose
refilled token count is below 1 persists `lastRefill = now` only, leaves the
stored tokens unchanged, and returns not-allowed together with the computed
count and the capacity. -/
theorem checkAndConsume_denied_persists_timestamp_only
    (now : ℤ) (st : BucketState) (limit : ℤ) (window : Duration)
    (hl : 0 < limit) (hw : 0 < window)
    (hlt : refilledTokens limit (durationSeconds window) now st < 1) :
    RedisCheckAndConsume now st limit window =
      .ok (⟨false, refilledTokens limit (durationSeconds window) now st, limit⟩,
        ⟨st.tokens, some now⟩) := by
  rw [rcac_eq now st limit window hl hw, script_denied_eq limit _ now st hlt]
  norm_num

/-- C3 witness: a bucket holding half a token at the current instant denies the
call, keeps its stored half token, and persists only the timestamp. -/
theorem checkAndConsume_denied_persists_timestamp_only_witness :
    0 < (10 : ℤ) ∧ 0 < (10 ^ 9 : ℤ) ∧
    refilledTokens 10 (durationSeconds (10 ^ 9)) 0 ⟨some (1/2), some 0⟩ < 1 ∧
    RedisCheckAndConsume 0 ⟨some (1/2), some 0⟩ 10 (10 ^ 9) =
      .ok (⟨false, 1/2, 10⟩, ⟨some (1/2), some 0⟩) := by
  have hr : refilledTokens 10 (durationSeconds (10 ^ 9)) 0 ⟨some (1/2), some 0⟩ = 1/2 := by
    norm_num [refilledTokens, durationSeconds, min_def]
  refine ⟨by norm_num, by norm_num, by rw [hr]; norm_num, ?_⟩
  rw [checkAndConsume_denied_persists_timestamp_only 0 ⟨some (1/2), some 0⟩ 10 (10 ^ 9)
    (by norm_num) (by norm_num) (by rw [hr]; norm_num), hr]

/-- One script run preserves the stored-token bounds: the allowed branch writes
`refilled − 1`, which lies in `[0, capacity]` because the guard gives
`1 ≤ refilled` and the cap gives `refilled ≤ capacity`; the denied branch
leaves the stored tokens untouched. -/
theorem bucketInv_script (capacity : ℤ) (ws : ℚ) (now : ℤ) (st : BucketState)
    (h : BucketInv capacity st) :
    BucketInv capacity (tokenBucketScript capacity ws now st).2 := by
  have hcap : refilledTokens capacity ws now st ≤ (capacity : ℚ) := by
    rw [refilledTokens]
    exact min_le_left _ _
  by_cases hguard : 1 ≤ refilledTokens capacity ws now st
  · rw [script_allowed_eq capacity ws now st hguard]
    intro t ht
    simp only [Option.mem_def, Option.some.injEq] at ht
    constructor
    · rw [← ht]; linarith
    · rw [← ht]; linarith
  · rw [script_denied_eq capacity ws now st (not_le.mp hguard)]
    exact h

/-- C4: with a positive capacity and window, the stored token count of a
bucket satisfies `0 ≤ tokens ≤ capacity` after every call of any sequence of
CheckAndConsume calls (every prefix of the call sequence), starting from any
state within bounds — in particular from a fresh bucket. -/
theorem tokens_within_bounds
    (limit : ℤ) (window : Duration) (st : BucketState) (calls : List ℤ) (n : ℕ)
    (hl : 0 < limit) (hw : 0 < window) (hinv : BucketInv limit st) :
    BucketInv limit (runCheckCalls limit window st (calls.take n)) := by
  have key : ∀ (l : List ℤ) (s : BucketState), BucketInv limit s →
      BucketInv limit (runCheckCalls limit window s l) := by
    intro l
    induction l with
    | nil => exact fun s hs => hs
    | cons now rest ih =>
        intro s hs
        have hstep := rcac_eq now s limit window hl hw
        simp only [runCheckCalls, hstep]
        exact ih _ (bucketInv_script limit (durationSeconds window) now s hs)
  exact key _ _ hinv

/-- C4 witness: three immediate calls on a fresh capacity-10 bucket keep the
stored tokens within `[0, 10]` after every call. -/
theorem tokens_within_bounds_witness :
    0 < (10 : ℤ) ∧ 0 < (10 ^ 9 : ℤ) ∧ BucketInv 10 ⟨none, none⟩ ∧
    BucketInv 10 (runCheckCalls 10 (10 ^ 9) ⟨none, none⟩ ([0, 0, 0].take 3)) :=
  ⟨by norm_num, by norm_num, by intro t ht; simp at ht,
    tokens_within_bounds 10 (10 ^ 9) ⟨none, none⟩ [0, 0, 0] 3 (by norm_num) (by norm_num)
      (by intro t ht; simp at ht)⟩

/-- C5: on a validated input, when IsBlocked reports true, Execute returns the
pre-blocked outcome (Allowed=false, Blocked=true, the standard message) and
the call trace is exactly the IsBlocked call — neither CheckAndConsume nor
SetBlock is invoked, so the bucket is untouched and the penalty not extended. -/
theorem execute_preblocked_short_circuits
    (storage : Storage) (input : Input)
    (hv : input.Validate = .ok ())
    (hb : storage.IsBlocked input.Key = .ok true) :
    Execute storage input =
      (.ok ⟨false, 0, 0, true, RateLimitExceededMessage⟩,
        [.isBlockedOp input.Key]) := by
  simp only [Execute, hv, hb, createBlockedOutput]

/-- C5 witness: a concrete blocked identity takes the short-circuit. -/
theorem execute_preblocked_short_circuits_witness :
    (Input.mk ⟨"ip", "1.2.3.4"⟩ 10 (10 ^ 9) 5).Validate = .ok () ∧
    (Storage.mk (fun _ => .ok true) (fun _ _ _ => .ok ⟨true, 9, 10⟩)
        (fun _ _ => .ok ())).IsBlocked ⟨"ip", "1.2.3.4"⟩ = .ok true ∧
    Execute
        (Storage.mk (fun _ => .ok true) (fun _ _ _ => .ok ⟨true, 9, 10⟩)
          (fun _ _ => .ok ()))
        (Input.mk ⟨"ip", "1.2.3.4"⟩ 10 (10 ^ 9) 5) =
      (.ok ⟨false, 0, 0, true, RateLimitExceededMessage⟩,
        [.isBlockedOp ⟨"ip", "1.2.3.4"⟩]) :=
  ⟨rfl, rfl,
    execute_preblocked_short_circuits
      (Storage.mk (fun _ => .ok true) (fun _ _ _ => .ok ⟨true, 9, 10⟩)
        (fun _ _ => .ok ()))
      (Input.mk ⟨"ip", "1.2.3.4"⟩ 10 (10 ^ 9) 5) rfl rfl⟩

/-- C6: on a validated input with IsBlocked false and a denying
CheckAndConsume result, Execute calls SetBlock with the input's block
duration; on SetBlock success it returns the just-exhausted outcome
(Allowed=false, Blocked=false, the standard message, the result's tokens and
limit); on SetBlock failure the error is returned immediately — in both cases
the trace ends at that SetBlock call, with no compensating bucket write. -/
theorem execute_exhausted_blocks_or_propagates
    (storage : Storage) (input : Input) (result : CheckResult)
    (hv : input.Validate = .ok ())
    (hb : storage.IsBlocked input.Key = .ok false)
    (hc : storage.CheckAndConsume input.Key input.Limit input.Window = .ok result)
    (hd : result.Allowed = false) :
    (storage.SetBlock input.Key input.BlockTime = .ok () →
      Execute storage input =
        (.ok ⟨false, result.CurrentTokens, result.Limit, false, RateLimitExceededMessage⟩,
          [.isBlockedOp input.Key,
            .checkAndConsumeOp input.Key input.Limit input.Window,
            .setBlockOp input.Key input.BlockTime])) ∧
    (∀ e, storage.SetBlock input.Key input.BlockTime = .error e →
      Execute storage input =
        (.error e,
          [.isBlockedOp input.Key,
            .checkAndConsumeOp input.Key input.Limit input.Window,
            .setBlockOp input.Key input.BlockTime])) := by
  constructor
  · intro hs
    simp only [Execute, hv, hb, hc, hd, hs, createRateLimitExceededOutput,
      Bool.not_false, if_true]
  · intro e hs
    simp only [Execute, hv, hb, hc, hd, hs, Bool.not_false, if_true]

/-- C6 witness: a concrete exhausted bucket, once with SetBlock succeeding and
once with SetBlock failing. -/
theorem execute_exhausted_blocks_or_propagates_witness :
    Execute
        (Storage.mk (fun _ => .ok false) (fun _ _ _ => .ok ⟨false, 0, 10⟩)
          (fun _ _ => .ok ()))
        (Input.mk ⟨"ip", "1.2.3.4"⟩ 10 (10 ^ 9) 5) =
      (.ok ⟨false, 0, 10, false, RateLimitExceededMessage⟩,
        [.isBlockedOp ⟨"ip", "1.2.3.4"⟩,
          .checkAndConsumeOp ⟨"ip", "1.2.3.4"⟩ 10 (10 ^ 9),
          .setBlockOp ⟨"ip", "1.2.3.4"⟩ 5]) ∧
    Execute
        (Storage.mk (fun _ => .ok false) (fun _ _ _ => .ok ⟨false, 0, 10⟩)
          (fun _ _ => .error "set block error"))
        (Input.mk ⟨"ip", "1.2.3.4"⟩ 10 (10 ^ 9) 5) =
      (.error "set block error",
        [.isBlockedOp ⟨"ip", "1.2.3.4"⟩,
          .checkAndConsumeOp ⟨"ip", "1.2.3.4"⟩ 10 (10 ^ 9),
          .setBlockOp ⟨"ip", "1.2.3.4"⟩ 5]) :=
  ⟨(execute_exhausted_blocks_or_propagates
      (Storage.mk (fun _ => .ok false) (fun _ _ _ => .ok ⟨false, 0, 10⟩)
        (fun _ _ => .ok ()))
      (Input.mk ⟨"ip", "1.2.3.4"⟩ 10 (10 ^ 9) 5) ⟨false, 0, 10⟩
      (by rfl) (by rfl) (by rfl) (by rfl)).1 (by rfl),
    (execute_exhausted_blocks_or_propagates
      (Storage.mk (fun _ => .ok false) (fun _ _ _ => .ok ⟨false, 0, 10⟩)
        (fun _ _ => .error "set block error"))
      (Input.mk ⟨"ip", "1.2.3.4"⟩ 10 (10 ^ 9) 5) ⟨false, 0, 10⟩
      (by rfl) (by rfl) (by rfl) (by rfl)).2 "set block error" (by rfl)⟩

/-- C7: the rate-limit input pairs a policy with its identity — a non-empty
API key present in the registry yields the token identity with that key's
policy; an empty key or a key absent from the registry yields the IP identity
with the default IP policy (an unknown key never becomes a token identity). -/
theorem buildRateLimitInput_pairs_policy_with_identity
    (cfg : MiddlewareConfig) (ip apiKey : String) :
    (∀ tc : TokenConfig, apiKey ≠ "" → cfg.GetTokenConfig apiKey = some tc →
      buildRateLimitInput cfg ip apiKey =
        ⟨NewTokenKey apiKey, tc.Limit, tc.Window, tc.BlockTime⟩) ∧
    (apiKey = "" ∨ cfg.GetTokenConfig apiKey = none →
      buildRateLimitInput cfg ip apiKey =
        ⟨NewIPKey ip, cfg.GetIPLimit, cfg.GetIPWindow, cfg.GetIPBlockTime⟩) := by
  constructor
  · intro tc hne hsome
    simp only [buildRateLimitInput, hne, hsome, if_true, ne_eq,
      not_false_eq_true, ite_true]
  · rintro (hempty | hnone)
    · simp only [buildRateLimitInput, hempty, ne_eq, not_true_eq_false, ite_false]
    · by_cases hne : apiKey = ""
      · simp only [buildRateLimitInput, hne, ne_eq, not_true_eq_false, ite_false]
      · simp only [buildRateLimitInput, hne, hnone, ne_eq, not_false_eq_true, ite_true]

/-- C7 witness: a registry holding a policy for `abc123` routes that key to
the token identity and its policy, while the empty key and an unknown key
route to the IP identity with the default policy. -/
theorem buildRateLimitInput_pairs_policy_with_identity_witness :
    buildRateLimitInput
        (MiddlewareConfig.mk 10 (10 ^ 9) 5
          (fun s => if s = "abc123" then some ⟨100, 10 ^ 9, 5⟩ else none))
        "1.2.3.4" "abc123" =
      ⟨NewTokenKey "abc123", 100, 10 ^ 9, 5⟩ ∧
    buildRateLimitInput
        (MiddlewareConfig.mk 10 (10 ^ 9) 5
          (fun s => if s = "abc123" then some ⟨100, 10 ^ 9, 5⟩ else none))
        "1.2.3.4" "" =
      ⟨NewIPKey "1.2.3.4", 10, 10 ^ 9, 5⟩ ∧
    buildRateLimitInput
        (MiddlewareConfig.mk 10 (10 ^ 9) 5
          (fun s => if s = "abc123" then some ⟨100, 10 ^ 9, 5⟩ else none))
        "1.2.3.4" "unknown-key" =
      ⟨NewIPKey "1.2.3.4", 10, 10 ^ 9, 5⟩ :=
  ⟨(buildRateLimitInput_pairs_policy_with_identity
      (MiddlewareConfig.mk 10 (10 ^ 9) 5
        (fun s => if s = "abc123" then some ⟨100, 10 ^ 9, 5⟩ else none))
      "1.2.3.4" "abc123").1 ⟨100, 10 ^ 9, 5⟩ (by simp) (by simp),
    (buildRateLimitInput_pairs_policy_with_identity
      (MiddlewareConfig.mk 10 (10 ^ 9) 5
        (fun s => if s = "abc123" then some ⟨100, 10 ^ 9, 5⟩ else none))
      "1.2.3.4" "").2 (Or.inl rfl),
    (buildRateLimitInput_pairs_policy_with_identity
      (MiddlewareConfig.mk 10 (10 ^ 9) 5
        (fun s => if s = "abc123" then some ⟨100, 10 ^ 9, 5⟩ else none))
      "1.2.3.4" "unknown-key").2 (Or.inr (by simp))⟩

/-- C8 counterexample: a reply whose third element (capacity) is a string
rather than an integer is parsed successfully — `parseScriptResult` never
inspects the capacity element, so a wrongly-typed capacity does not produce
the parse error the claim requires. -/
theorem parse_ignores_capacity_element_counterexample :
    parseScriptResult (.arr [.int 1, .int 5, .str "not-a-number"]) = .ok (true, 5) ∧
    isParseError (parseScriptResult (.arr [.int 1, .int 5, .str "not-a-number"])) = false :=
  ⟨rfl, rfl⟩

/-- C8 (amended): a malformed script reply — not an array, an array whose
arity is not exactly 3, an allowed flag that is not an integer, or a tokens
element that is neither a number nor a numeric string — makes CheckAndConsume
return a parse error rather than a result; the third (capacity) element is
not inspected, and a well-formed first two elements parse to
`(allowed == 1, tokens)` whatever the third element is. -/
theorem parse_rejects_malformed_results :
    (∀ v : RVal, (∀ l, v ≠ .arr l) → isParseError (parseScriptResult v) = true) ∧
    (∀ l : List RVal, l.length ≠ 3 → isParseError (parseScriptResult (.arr l)) = true) ∧
    (∀ a t c : RVal, (∀ n : ℤ, a ≠ .int n) →
      isParseError (parseScriptResult (.arr [a, t, c])) = true) ∧
    (∀ (n : ℤ) (t c : RVal) (e : String), parseTokensValue t = .error e →
      isParseError (parseScriptResult (.arr [.int n, t, c])) = true) ∧
    (∀ (n : ℤ) (t c : RVal) (q : ℚ), parseTokensValue t = .ok q →
      parseScriptResult (.arr [.int n, t, c]) = .ok (n == 1, q)) := by
  refine ⟨?_, ?_, ?_, ?_, ?_⟩
  · intro v hv
    cases v with
    | arr l => exact absurd rfl (hv l)
    | int n => rfl
    | str s => rfl
    | flt q => rfl
    | other => rfl
  · intro l hlen
    match l, hlen with
    | [], _ => rfl
    | [_], _ => rfl
    | [_, _], _ => rfl
    | [_, _, _], h => exact absurd rfl h
    | _ :: _ :: _ :: _ :: _, _ => rfl
  · intro a t c ha
    cases a with
    | int n => exact absurd rfl (ha n)
    | str s => rfl
    | flt q => rfl
    | arr l => rfl
    | other => rfl
  · intro n t c e he
    simp only [parseScriptResult, he, isParseError]
  · intro n t c q hq
    simp only [parseScriptResult, hq]

/-- C8 amended-claim witness: each malformed shape at a concrete reply value,
and the well-formed parse at a concrete reply. -/
theorem parse_rejects_malformed_results_witness :
    isParseError (parseScriptResult .other) = true ∧
    isParseError (parseScriptResult (.arr [.int 1, .int 5])) = true ∧
    isParseError (parseScriptResult (.arr [.str "1", .int 5, .int 10])) = true ∧
    isParseError (parseScriptResult (.arr [.int 1, .other, .int 10])) = true ∧
    parseScriptResult (.arr [.int 1, .flt 5, .int 10]) = .ok (true, 5) := by
  refine ⟨?_, ?_, ?_, ?_, ?_⟩
  · exact parse_rejects_malformed_results.1 .other (fun l h => by cases h)
  · exact parse_rejects_malformed_results.2.1 [.int 1, .int 5] (by simp)
  · exact parse_rejects_malformed_results.2.2.1 (.str "1") (.int 5) (.int 10)
      (fun n h => by cases h)
  · exact parse_rejects_malformed_results.2.2.2.1 1 .other (.int 10)
      "unexpected tokens value type" rfl
  · exact parse_rejects_malformed_results.2.2.2.2 1 (.flt 5) (.int 10) 5 rfl

/-- C9: over identities whose kind is `ip` or `token` and whose value is
non-empty, the canonical serialization `rate_limit:<kind>:<value>` is
injective — equal key strings force equal identities, so distinct identities
never share a storage namespace. -/
theorem keyString_injective (k1 k2 : LimiterKey)
    (h1 : k1.Type' = KeyTypeIP ∨ k1.Type' = KeyTypeToken)
    (h2 : k2.Type' = KeyTypeIP ∨ k2.Type' = KeyTypeToken)
    (hv1 : k1.Value ≠ "") (hv2 : k2.Value ≠ "")
    (heq : k1.keyString = k2.keyString) : k1 = k2 := by
  obtain ⟨t1, v1⟩ := k1
  obtain ⟨t2, v2⟩ := k2
  simp only at h1 h2
  simp only [LimiterKey.keyString] at heq
  rcases h1 with h1 | h1 <;> rcases h2 with h2 | h2 <;> subst h1 <;> subst h2 <;>
    have hd := congrArg String.data heq <;>
    simp only [String.data_append, KeyTypeIP, KeyTypeToken, List.append_assoc] at hd
  · have hv := List.append_cancel_left (List.append_cancel_left (List.append_cancel_left hd))
    have : v1 = v2 := String.ext hv
    subst this
    rfl
  · have hd' := List.append_cancel_left hd
    have e1 : ("ip".data ++ (":".data ++ v1.data)).head? = some 'i' := rfl
    have e2 : ("token".data ++ (":".data ++ v2.data)).head? = some 't' := rfl
    have hcontra := congrArg List.head? hd'
    rw [e1, e2] at hcontra
    simp at hcontra
  · have hd' := List.append_cancel_left hd
    have e1 : ("token".data ++ (":".data ++ v1.data)).head? = some 't' := rfl
    have e2 : ("ip".data ++ (":".data ++ v2.data)).head? = some 'i' := rfl
    have hcontra := congrArg List.head? hd'
    rw [e1, e2] at hcontra
    simp at hcontra
  · have hv := List.append_cancel_left (List.append_cancel_left (List.append_cancel_left hd))
    have : v1 = v2 := String.ext hv
    subst this
    rfl

/-- C9 witness: the injectivity instance at a concrete valid identity. -/
theorem keyString_injective_witness :
    ((⟨"ip", "1.2.3.4"⟩ : LimiterKey).Value ≠ "") ∧
    (⟨"ip", "1.2.3.4"⟩ : LimiterKey).keyString = (⟨"ip", "1.2.3.4"⟩ : LimiterKey).keyString ∧
    (⟨"ip", "1.2.3.4"⟩ : LimiterKey) = ⟨"ip", "1.2.3.4"⟩ :=
  ⟨by decide, rfl,
    keyString_injective ⟨"ip", "1.2.3.4"⟩ ⟨"ip", "1.2.3.4"⟩ (Or.inl rfl) (Or.inl rfl)
      (by decide) (by decide) rfl⟩

/-- C10: an input with block time exactly 0 passes validation (only negative
block times are rejected), yet when the bucket denies the request SetBlock
rejects the non-positive duration, so Execute returns an error — surfaced as
a 500 response by the middleware — and the just-exhausted outcome is
unreachable on the deny path. -/
theorem zero_blocktime_denial_errors
    (now : ℤ) (st : RedisState) (input : Input)
    (hkey : input.Key.IsValid = true) (hl : 0 < input.Limit) (hw : 0 < input.Window)
    (hbt : input.BlockTime = 0)
    (hnb : st.blockFlags (input.Key.keyString ++ ":blocked") = false)
    (hden : refilledTokens input.Limit (durationSeconds input.Window) now
      (st.buckets input.Key.keyString) < 1) :
    input.Validate = .ok () ∧
    (ExecuteRedis now st input).1 = .error "block time must be positive" ∧
    handleOutcome (ExecuteRedis now st input).1 = .respond 500 := by
  have hv : input.Validate = .ok () := by
    unfold Input.Validate
    rw [hkey, hbt]
    simp [not_le.mpr hl, not_le.mpr hw]
  have hc : RedisCheckAndConsume now (st.buckets input.Key.keyString)
      input.Limit input.Window =
      .ok (⟨false, refilledTokens input.Limit (durationSeconds input.Window) now
          (st.buckets input.Key.keyString), input.Limit⟩,
        ⟨(st.buckets input.Key.keyString).tokens, some now⟩) := by
    rw [rcac_eq _ _ _ _ hl hw, script_denied_eq _ _ _ _ hden]
    rfl
  refine ⟨hv, ?_, ?_⟩ <;>
    simp only [ExecuteRedis, hv, redisIsBlocked, hnb, redisCheckAndConsumeState, hc,
      Bool.not_false, if_true, redisSetBlock, hbt, le_refl, if_pos, handleOutcome]

/-- C10 witness: a drained bucket, no block flag, block time 0 — validation
passes, Execute errors, and the middleware answers 500. -/
theorem zero_blocktime_denial_errors_witness :
    (Input.mk ⟨"ip", "1.2.3.4"⟩ 10 (10 ^ 9) 0).Validate = .ok () ∧
    (ExecuteRedis 0 ⟨fun _ => ⟨some 0, some 0⟩, fun _ => false⟩
        (Input.mk ⟨"ip", "1.2.3.4"⟩ 10 (10 ^ 9) 0)).1 =
      .error "block time must be positive" ∧
    handleOutcome (ExecuteRedis 0 ⟨fun _ => ⟨some 0, some 0⟩, fun _ => false⟩
        (Input.mk ⟨"ip", "1.2.3.4"⟩ 10 (10 ^ 9) 0)).1 = .respond 500 :=
  zero_blocktime_denial_errors 0 ⟨fun _ => ⟨some 0, some 0⟩, fun _ => false⟩
    (Input.mk ⟨"ip", "1.2.3.4"⟩ 10 (10 ^ 9) 0) (by rfl) (by norm_num) (by norm_num)
    rfl rfl (by norm_num [refilledTokens, durationSeconds, min_def])

end RateLimiter
